import Mathlib

/- Shallow embedding of the default-ingress reconciliation core of the
terraform-provider-ocm repository: the Terraform attribute-value bridge
(provider/common/tfconversions.go), the default-ingress state model,
validation gate, read population and update reconciler
(provider/defaultingress/ingress.go), and the group-membership Update
handler (provider/groupmembership/group_membership_resource.go). -/

/-- Terraform plugin-framework string attribute (types.String): null, unknown,
or a concrete value. -/
inductive TFString where
  | null
  | unknown
  | value (s : String)
deriving DecidableEq, Repr

/-- types.String ValueString(): the concrete string, or the empty string when
the attribute is null or unknown. -/
def TFString.valueString : TFString → String
  | .value s => s
  | _ => ""

/-- An element inside a Terraform map/list attribute (attr.Value): a string
element, or a non-string element standing for a mismatched element type. -/
inductive AttrValue where
  | stringVal (s : String)
  | boolVal (b : Bool)
deriving DecidableEq, Repr

def AttrValue.isString : AttrValue → Bool
  | .stringVal _ => true
  | .boolVal _ => false

/-- Terraform plugin-framework map attribute (types.Map) with its three
states; elements keep insertion order in this model. -/
inductive TFMap where
  | null
  | unknown
  | value (elems : List (String × AttrValue))
deriving DecidableEq, Repr

/-- Terraform plugin-framework list attribute (types.List) with its three
states. -/
inductive TFList where
  | null
  | unknown
  | value (elems : List AttrValue)
deriving DecidableEq, Repr

/-- Diagnostic detail emitted by the framework ElementsAs conversion when an
element does not have the expected string type. -/
def elementMismatchDetail : String := "cannot convert element to string"

/-- Framework ElementsAs for a map of strings: succeeds when every element is
a string, otherwise reports the diagnostic detail of the first bad element. -/
def mapElementsAs : List (String × AttrValue) → Except String (List (String × String))
  | [] => .ok []
  | (k, .stringVal s) :: rest => (mapElementsAs rest).map (fun r => (k, s) :: r)
  | (_, .boolVal _) :: _ => .error elementMismatchDetail

/-- Framework ElementsAs for a list of strings. -/
def listElementsAs : List AttrValue → Except String (List String)
  | [] => .ok []
  | .stringVal s :: rest => (listElementsAs rest).map (fun r => s :: r)
  | .boolVal _ :: _ => .error elementMismatchDetail

/-- provider/common/tfconversions.go OptionalMap: a null or unknown map
converts to the nil native map with no error; otherwise the elements are
converted, and a conversion diagnostic becomes a returned error. -/
def OptionalMap : TFMap → Except String (Option (List (String × String)))
  | .null => .ok none
  | .unknown => .ok none
  | .value elems =>
    match mapElementsAs elems with
    | .ok result => .ok (some result)
    | .error d => .error ("error converting to map object " ++ d)

/-- provider/common/tfconversions.go StringListToArray: a null or unknown
list converts to the nil native slice with no error; otherwise the elements
are converted, and a conversion diagnostic becomes a returned error. -/
def StringListToArray : TFList → Except String (Option (List String))
  | .null => .ok none
  | .unknown => .ok none
  | .value elems =>
    match listElementsAs elems with
    | .ok result => .ok (some result)
    | .error d => .error ("error converting to map object " ++ d)

/-- Framework types.MapValue with string element type: validates the element
types; on failure it yields an unknown map together with an error flag. -/
def mapValueStringType (elems : List (String × AttrValue)) : TFMap × Bool :=
  if elems.all (fun kv => kv.2.isString) then (.value elems, false) else (.unknown, true)

/-- Framework types.ListValue with string element type. -/
def listValueStringType (elems : List AttrValue) : TFList × Bool :=
  if elems.all AttrValue.isString then (.value elems, false) else (.unknown, true)

/-- provider/common/tfconversions.go ConvertStringMapToMapType. The native
map may be nil (none); iteration over a nil map contributes no elements. The
source constructs an error from the diagnostics with fmt.Errorf but discards
it and returns the map value with a nil error either way. -/
def ConvertStringMapToMapType (stringMap : Option (List (String × String))) : Except String TFMap :=
  let elements := (stringMap.getD []).map (fun kv => (kv.1, AttrValue.stringVal kv.2))
  let mv := mapValueStringType elements
  .ok mv.1

/-- provider/common/tfconversions.go StringArrayToList. The native slice may
be nil (none). As in the source, a diagnostics error is discarded. -/
def StringArrayToList (stringList : Option (List String)) : Except String TFList :=
  let elements := (stringList.getD []).map AttrValue.stringVal
  let lv := listValueStringType elements
  .ok lv.1

deriving instance DecidableEq for Except

/-- Modelled from the spec: common.IsStringAttributeEmpty is not under src
(only its callers are). Per the data model, a string attribute is empty when
it is null, unknown, or the empty string. -/
def IsStringAttributeEmpty : TFString → Bool
  | .value s => s == ""
  | _ => true

/-- Modelled from the spec: common.OptionalList is not under src. Per the
Attribute Value Bridge contract it is the list analogue of OptionalMap,
behaving exactly like StringListToArray. -/
def OptionalList (tfVal : TFList) : Except String (Option (List String)) :=
  StringListToArray tfVal

/-- Split a character list at every occurrence of the separator. -/
def splitOnChar (c : Char) : List Char → List (List Char)
  | [] => [[]]
  | a :: rest =>
    if a = c then [] :: splitOnChar c rest
    else
      match splitOnChar c rest with
      | [] => [[a]]
      | g :: gs => (a :: g) :: gs

/-- Parse a non-empty run of decimal digits. -/
def parseNatAux : List Char → Nat → Option Nat
  | [], acc => some acc
  | c :: rest, acc =>
    if c.isDigit then parseNatAux rest (acc * 10 + (c.toNat - 48)) else none

def parseNatChars : List Char → Option Nat
  | [] => none
  | cs => parseNatAux cs 0

/-- Modelled from the spec: the Version Comparator parses a dotted version
with an optional pre-release suffix after a dash. -/
def parseVersion (s : String) : Option (Nat × Nat × Nat × Option String) :=
  match splitOnChar '-' s.toList with
  | [] => none
  | core :: rest =>
    let pre :=
      if rest.isEmpty then none
      else some (String.mk (List.intercalate ['-'] rest))
    match (splitOnChar '.' core).mapM parseNatChars with
    | some [maj, mnr, pat] => some (maj, mnr, pat, pre)
    | _ => none

/-- Modelled from the spec: pre-release ordering — absence of a pre-release
suffix sorts higher than presence of one. -/
def comparePre : Option String → Option String → Ordering
  | none, none => .eq
  | none, some _ => .gt
  | some _, none => .lt
  | some a, some b => compare a b

/-- Modelled from the spec: compare major, minor, patch, then pre-release. -/
def compareVersion (a b : Nat × Nat × Nat × Option String) : Ordering :=
  (compare a.1 b.1).then ((compare a.2.1 b.2.1).then
    ((compare a.2.2.1 b.2.2.1).then (comparePre a.2.2.2 b.2.2.2)))

/-- Modelled from the spec: common.IsGreaterThanOrEqual is not under src.
Fails when either operand is unparseable; otherwise candidate >= baseline. -/
def IsGreaterThanOrEqual (candidate baseline : String) : Except String Bool :=
  match parseVersion candidate, parseVersion baseline with
  | some c, some b => .ok (!(compareVersion c b == Ordering.lt))
  | _, _ => .error "failed to parse version"

/-- provider/defaultingress DefaultIngress state struct: the stored state and
declared intent shape for the default ingress. -/
structure DefaultIngress where
  routeSelectors : TFMap
  excludedNamespaces : TFList
  wildcardPolicy : TFString
  namespaceOwnershipPolicy : TFString
  id : TFString
  clusterRoutesHostname : TFString
  clusterRoutesTlsSecretRef : TFString
deriving DecidableEq, Repr

/-- The Go zero value of DefaultIngress: every framework value is null. -/
def DefaultIngress.empty : DefaultIngress :=
  ⟨.null, .null, .null, .null, .null, .null, .null⟩

def lowestDefaultIngressVer : String := "4.14.0-0"

/-- Error message of the version gate in ValidateDefaultIngress. -/
def versionUnsupportedMsg (version : String) : String :=
  "version '" ++ version ++ "' is not supported with default ingress, " ++
    "minimum supported version is " ++ lowestDefaultIngressVer

/-- Error message of the version parse failure in ValidateDefaultIngress. -/
def versionNotSupportedMsg (version err : String) : String :=
  "version '" ++ version ++ "' is not supported: " ++ err

/-- Error message of the creation guard in ValidateDefaultIngress. -/
def creationParamsMsg : String :=
  "default_ingress params: cluster_routes_hostname and cluster_routes_tls_secret_ref " ++
    "can't be set on cluster creation"

/-- Error message of the both-or-neither rule in ValidateDefaultIngress. -/
def mustBeSetTogetherMsg : String :=
  "default_ingress params: cluster_routes_hostname and cluster_routes_tls_secret_ref must be set together"

/-- provider/defaultingress/ingress.go ValidateDefaultIngress: nil state is
trivially valid; then the version gate, then the creation guard, then the
both-or-neither rule, in that order. Returns some error message on failure. -/
def ValidateDefaultIngress (state : Option DefaultIngress) (version : String) : Option String :=
  match state with
  | none => none
  | some ingress =>
    match IsGreaterThanOrEqual version lowestDefaultIngressVer with
    | .error e => some (versionNotSupportedMsg version e)
    | .ok greater =>
      if !greater then
        some (versionUnsupportedMsg version)
      else if IsStringAttributeEmpty ingress.id &&
          (!IsStringAttributeEmpty ingress.clusterRoutesHostname ||
           !IsStringAttributeEmpty ingress.clusterRoutesTlsSecretRef) then
        some creationParamsMsg
      else if IsStringAttributeEmpty ingress.clusterRoutesHostname !=
          IsStringAttributeEmpty ingress.clusterRoutesTlsSecretRef then
        some mustBeSetTogetherMsg
      else
        none

/-- cmv1.IngressBuilder: each field is none until its setter is called, so a
field is part of the request body exactly when it is some. -/
structure IngressBuilder where
  isDefault : Option Bool := none
  routeSelectors : Option (List (String × String)) := none
  excludedNamespaces : Option (List String) := none
  routeWildcardPolicy : Option String := none
  routeNamespaceOwnershipPolicy : Option String := none
  clusterRoutesHostname : Option String := none
  clusterRoutesTlsSecretRef : Option String := none
deriving DecidableEq, Repr

/-- cmv1.Ingress built from a builder; Build never fails for these fields, so
the body is the builder contents. -/
abbrev Ingress := IngressBuilder

def IngressBuilder.build (b : IngressBuilder) : Except String Ingress := .ok b

/-- provider/defaultingress/ingress.go getDefaultIngressBuilder: returns nil
(none) on a conversion error; defaults a nil route-selectors map and a nil
excluded-namespaces slice to empty before setting them, so both are always
set; sets the two policies only when non-empty. -/
def getDefaultIngressBuilder (state : DefaultIngress) : Option IngressBuilder :=
  match OptionalMap state.routeSelectors with
  | .error _ => none
  | .ok rs =>
    let routeSelectors := rs.getD []
    match OptionalList state.excludedNamespaces with
    | .error _ => none
    | .ok en =>
      let excludedNamespaces := en.getD []
      some { routeSelectors := some routeSelectors,
             excludedNamespaces := some excludedNamespaces,
             routeWildcardPolicy :=
               if !IsStringAttributeEmpty state.wildcardPolicy then
                 some state.wildcardPolicy.valueString
               else none,
             routeNamespaceOwnershipPolicy :=
               if !IsStringAttributeEmpty state.namespaceOwnershipPolicy then
                 some state.namespaceOwnershipPolicy.valueString
               else none }

/-- cmv1.Ingress as returned inside a List response: ID and Default are plain
accessors; each optional field comes with a presence bit (GetX returning ok). -/
structure RemoteIngress where
  remoteId : String
  isDefault : Bool
  routeSelectors : Option (List (String × String))
  excludedNamespaces : Option (List String)
  routeWildcardPolicy : Option String
  routeNamespaceOwnershipPolicy : Option String
  clusterRoutesHostname : Option String
  clusterRoutesTlsSecretRef : Option String
deriving DecidableEq, Repr

/-- The loop in PopulateDefaultIngress stops at the first ingress marked
default. -/
def findDefault : List RemoteIngress → Option RemoteIngress
  | [] => none
  | ing :: rest => if ing.isDefault then some ing else findDefault rest

/-- The per-field population of the state from the default remote ingress in
PopulateDefaultIngress: route selectors and excluded namespaces are written
only when present remotely; the four string fields get the remote value when
present and are set to null otherwise. -/
def populateFrom (state : DefaultIngress) (ing : RemoteIngress) : Except String DefaultIngress := do
  let st := { state with id := TFString.value ing.remoteId }
  let st ← match ing.routeSelectors with
    | some rs => do
        let m ← ConvertStringMapToMapType (some rs)
        pure { st with routeSelectors := m }
    | none => pure st
  let st ← match ing.excludedNamespaces with
    | some ns => do
        let l ← StringArrayToList (some ns)
        pure { st with excludedNamespaces := l }
    | none => pure st
  let st := { st with wildcardPolicy :=
    match ing.routeWildcardPolicy with
    | some wp => .value wp
    | none => .null }
  let st := { st with namespaceOwnershipPolicy :=
    match ing.routeNamespaceOwnershipPolicy with
    | some p => .value p
    | none => .null }
  let st := { st with clusterRoutesHostname :=
    match ing.clusterRoutesHostname with
    | some h => .value h
    | none => .null }
  let st := { st with clusterRoutesTlsSecretRef :=
    match ing.clusterRoutesTlsSecretRef with
    | some t => .value t
    | none => .null }
  pure st

/-- A remote call issued against the ingresses client of a cluster. -/
inductive RemoteCall where
  | list
  | update (ingressId : String) (body : Ingress)
deriving DecidableEq, Repr

/-- The responses the remote client would give to the calls the reconciler
can issue. -/
structure IngressClient where
  listResult : Except String (List RemoteIngress)
  updateResult : Except String Unit
deriving Repr

/-- provider/defaultingress/ingress.go PopulateDefaultIngress: a nil state
returns immediately with no remote call; otherwise the ingress list is read
(one list call), the first default entry populates the state, and a list
without a default entry leaves the state unchanged. -/
def PopulateDefaultIngress (state : Option DefaultIngress)
    (listResult : Except String (List RemoteIngress)) :
    Except String (Option DefaultIngress) × List RemoteCall :=
  match state with
  | none => (.ok none, [])
  | some st =>
    match listResult with
    | .error e => (.error e, [.list])
    | .ok items =>
      match findDefault items with
      | none => (.ok (some st), [.list])
      | some ing =>
        match populateFrom st ing with
        | .error e => (.error e, [.list])
        | .ok st2 => (.ok (some st2), [.list])

/-- Outcome of a reconciler run: success, a returned error, or a Go runtime
panic (nil-pointer dereference). -/
inductive ExecResult where
  | ok
  | error (msg : String)
  | panicked (msg : String)
deriving DecidableEq, Repr

/-- The populate step of UpdateIngress: a fresh state is allocated and
PopulateDefaultIngress is run against the ingresses client of the cluster. -/
def runPopulateFresh (client : IngressClient) : Except String DefaultIngress × List RemoteCall :=
  match PopulateDefaultIngress (some DefaultIngress.empty) client.listResult with
  | (.error e, cs) => (.error e, cs)
  | (.ok stOpt, cs) => (.ok (stOpt.getD DefaultIngress.empty), cs)

/-- The two conditional setter calls of UpdateIngress: hostname and TLS
secret reference are added to the request body only when the stored and
planned values differ (reflect.DeepEqual). -/
def updateRequestBody (st p : DefaultIngress) (b0 : IngressBuilder) : IngressBuilder :=
  let b1 :=
    if st.clusterRoutesHostname = p.clusterRoutesHostname then b0
    else { b0 with clusterRoutesHostname := some p.clusterRoutesHostname.valueString }
  if st.clusterRoutesTlsSecretRef = p.clusterRoutesTlsSecretRef then b1
  else { b1 with clusterRoutesTlsSecretRef := some p.clusterRoutesTlsSecretRef.valueString }

/-- provider/defaultingress/ingress.go UpdateIngress: the reconciler for the
default ingress. The guard is reflect.DeepEqual of the stored state and plan
(structural equality, nil distinguished from values); on inequality it
validates the plan, populates a fresh state when the identifier is unknown,
builds the request body from the plan (hostname and TLS secret reference only
when they differ from the stored state), and issues one update call against
the stored identifier. -/
def UpdateIngress (state plan : Option DefaultIngress) (clusterId version : String)
    (client : IngressClient) : ExecResult × List RemoteCall :=
  if state = plan then
    (.ok, [])
  else
    match ValidateDefaultIngress plan version with
    | some msg => (.error msg, [])
    | none =>
      let popStep : Except String DefaultIngress × List RemoteCall :=
        match state with
        | none => runPopulateFresh client
        | some st =>
          if IsStringAttributeEmpty st.id then runPopulateFresh client
          else (.ok st, [])
      match popStep with
      | (.error e, calls) => (.error e, calls)
      | (.ok st, calls) =>
        match plan with
        | none => (.panicked "nil plan dereference in getDefaultIngressBuilder", calls)
        | some p =>
          match getDefaultIngressBuilder p with
          | none => (.panicked "method call on nil ingress builder", calls)
          | some b0 =>
            match (updateRequestBody st p b0).build with
            | .error e => (.error e, calls)
            | .ok body =>
              match client.updateResult with
              | .error e => (.error e, calls ++ [.update st.id.valueString body])
              | .ok _ => (.ok, calls ++ [.update st.id.valueString body])

/-- provider/groupmembership group membership state struct. -/
structure GroupMembershipState where
  cluster : TFString
  group : TFString
  id : TFString
  user : TFString
deriving DecidableEq, Repr

/-- A remote call the group-membership resource could issue. -/
inductive GroupCall where
  | pollCluster
  | addUser
  | getUser
  | deleteUser
deriving DecidableEq, Repr

/-- Diagnostics of a terraform response: a list of error (summary, detail)
pairs. -/
structure Diagnostics where
  entries : List (String × String)
deriving DecidableEq, Repr

/-- The UpdateResponse handed to the group-membership Update handler: its
diagnostics and the state it would write back (none means untouched). -/
structure UpdateResponse where
  diagnostics : Diagnostics
  writtenState : Option GroupMembershipState
deriving DecidableEq, Repr

/-- provider/groupmembership/group_membership_resource.go Update: adds one
informative error to the diagnostics and does nothing else. -/
def GroupMembershipUpdate (resp : UpdateResponse) : UpdateResponse × List GroupCall :=
  ({ resp with diagnostics :=
      ⟨resp.diagnostics.entries ++
        [("Can't update group membership", "Update is currently not supported.")]⟩ }, [])

theorem listElementsAs_map_stringVal (l : List String) :
    listElementsAs (l.map AttrValue.stringVal) = .ok l := by
  induction l with
  | nil => rfl
  | cons a t ih => simp [listElementsAs, ih, Except.map]

theorem mapElementsAs_map_stringVal (m : List (String × String)) :
    mapElementsAs (m.map fun kv => (kv.1, AttrValue.stringVal kv.2)) = .ok m := by
  induction m with
  | nil => rfl
  | cons a t ih =>
    obtain ⟨k, v⟩ := a
    simp [mapElementsAs, ih, Except.map]

theorem convert_map_ok (m : List (String × String)) :
    ConvertStringMapToMapType (some m) =
      .ok (TFMap.value (m.map fun kv => (kv.1, AttrValue.stringVal kv.2))) := by
  have hall : ((m.map fun kv => (kv.1, AttrValue.stringVal kv.2)).all
      fun kv => kv.2.isString) = true := by
    rw [List.all_eq_true]
    intro kv hkv
    obtain ⟨x, hx, rfl⟩ := List.mem_map.mp hkv
    rfl
  simp [ConvertStringMapToMapType, mapValueStringType, hall]

theorem string_array_to_list_ok (l : List String) :
    StringArrayToList (some l) = .ok (TFList.value (l.map AttrValue.stringVal)) := by
  have hall : ((l.map AttrValue.stringVal).all AttrValue.isString) = true := by
    rw [List.all_eq_true]
    intro v hv
    obtain ⟨x, hx, rfl⟩ := List.mem_map.mp hv
    rfl
  simp [StringArrayToList, listValueStringType, hall]

/-- C7: a null or unknown tool map/list converts to the nil native form with
no error, never to an empty collection, while an explicitly empty map/list
converts to an empty native collection, not nil. -/
theorem C7_null_vs_empty_distinction :
    OptionalMap TFMap.null = .ok none ∧
    OptionalMap TFMap.unknown = .ok none ∧
    OptionalMap (TFMap.value []) = .ok (some []) ∧
    StringListToArray TFList.null = .ok none ∧
    StringListToArray TFList.unknown = .ok none ∧
    StringListToArray (TFList.value []) = .ok (some []) := by
  decide

/-- C8: converting a non-nil native string list to the tool representation
with StringArrayToList and back with StringListToArray yields the original
list, element for element and in order; likewise for a non-nil native string
map via ConvertStringMapToMapType and OptionalMap. -/
theorem C8_round_trip :
    (∀ l : List String,
      (StringArrayToList (some l)).bind StringListToArray = Except.ok (some l)) ∧
    (∀ m : List (String × String),
      (ConvertStringMapToMapType (some m)).bind OptionalMap = Except.ok (some m)) := by
  constructor
  · intro l
    simp [string_array_to_list_ok, Except.bind, StringListToArray,
      listElementsAs_map_stringVal]
  · intro m
    simp [convert_map_ok, Except.bind, OptionalMap, mapElementsAs_map_stringVal]

theorem mapElementsAs_error (elems : List (String × AttrValue))
    (h : elems.any (fun kv => !kv.2.isString) = true) :
    mapElementsAs elems = .error elementMismatchDetail := by
  induction elems with
  | nil => simp at h
  | cons a t ih =>
    obtain ⟨k, v⟩ := a
    cases v with
    | stringVal s =>
      simp only [List.any_cons, AttrValue.isString, Bool.not_true, Bool.false_or] at h
      simp [mapElementsAs, ih h, Except.map]
    | boolVal b => simp [mapElementsAs]

theorem listElementsAs_error (elems : List AttrValue)
    (h : elems.any (fun v => !v.isString) = true) :
    listElementsAs elems = .error elementMismatchDetail := by
  induction elems with
  | nil => simp at h
  | cons a t ih =>
    cases a with
    | stringVal s =>
      simp only [List.any_cons, AttrValue.isString, Bool.not_true, Bool.false_or] at h
      simp [listElementsAs, ih h, Except.map]
    | boolVal b => simp [listElementsAs]

/-- C9: whenever a conversion between the tool representation and native
collections can fail (an element of the wrong type), OptionalMap and
StringListToArray return an error carrying the diagnostic detail and never a
success value; ConvertStringMapToMapType and StringArrayToList succeed on
every input (their failure branch is unreachable for string inputs), and no
conversion function panics. -/
theorem C9_conversion_error_reporting :
    (∀ elems : List (String × AttrValue), elems.any (fun kv => !kv.2.isString) = true →
      OptionalMap (.value elems) =
        .error ("error converting to map object " ++ elementMismatchDetail)) ∧
    (∀ elems : List AttrValue, elems.any (fun v => !v.isString) = true →
      StringListToArray (.value elems) =
        .error ("error converting to map object " ++ elementMismatchDetail)) ∧
    (∀ m : Option (List (String × String)), ∃ tf, ConvertStringMapToMapType m = .ok tf) ∧
    (∀ l : Option (List String), ∃ tf, StringArrayToList l = .ok tf) := by
  refine ⟨fun elems h => ?_, fun elems h => ?_, fun m => ⟨_, rfl⟩, fun l => ⟨_, rfl⟩⟩
  · simp [OptionalMap, mapElementsAs_error elems h]
  · simp [StringListToArray, listElementsAs_error elems h]

/-- Witness for C9 at concrete failing inputs. -/
theorem C9_conversion_error_reporting_witness :
    OptionalMap (.value [("k", .boolVal true)]) =
      .error ("error converting to map object " ++ elementMismatchDetail) ∧
    StringListToArray (.value [.boolVal false]) =
      .error ("error converting to map object " ++ elementMismatchDetail) :=
  ⟨C9_conversion_error_reporting.1 _ (by decide),
   C9_conversion_error_reporting.2.1 _ (by decide)⟩

/-- C10: the group-membership Update handler reports the informative error,
issues no remote call, and writes no state. -/
theorem C10_group_membership_update_unsupported (resp : UpdateResponse) :
    (GroupMembershipUpdate resp).2 = [] ∧
    (GroupMembershipUpdate resp).1.writtenState = resp.writtenState ∧
    (GroupMembershipUpdate resp).1.diagnostics.entries =
      resp.diagnostics.entries ++
        [("Can't update group membership", "Update is currently not supported.")] :=
  ⟨rfl, rfl, rfl⟩

/-- C1: when stored state and declared intent for the default ingress are
structurally deep-equal, UpdateIngress issues zero remote calls and returns
success. -/
theorem C1_update_idempotent_no_calls (state plan : Option DefaultIngress)
    (clusterId version : String) (client : IngressClient) (h : state = plan) :
    UpdateIngress state plan clusterId version client = (.ok, []) := by
  simp [UpdateIngress, h]

/-- Witness for C1 at a concrete equal pair. -/
theorem C1_update_idempotent_no_calls_witness :
    UpdateIngress (some DefaultIngress.empty) (some DefaultIngress.empty) "c" "4.14.1"
      ⟨Except.ok [], Except.ok ()⟩ = (.ok, []) :=
  C1_update_idempotent_no_calls _ _ _ _ _ rfl

/-- C3: a declared intent whose identifier is absent while hostname or TLS
secret reference is set fails validation with the invalid-configuration
message of the creation guard, and UpdateIngress returns that error without
issuing any remote call (for any supported parent version). -/
theorem C3_creation_guard (p : DefaultIngress) (state : Option DefaultIngress)
    (clusterId version : String) (client : IngressClient)
    (hver : IsGreaterThanOrEqual version lowestDefaultIngressVer = .ok true)
    (hid : IsStringAttributeEmpty p.id = true)
    (hset : IsStringAttributeEmpty p.clusterRoutesHostname = false ∨
      IsStringAttributeEmpty p.clusterRoutesTlsSecretRef = false)
    (hne : state ≠ some p) :
    ValidateDefaultIngress (some p) version = some creationParamsMsg ∧
    UpdateIngress state (some p) clusterId version client = (.error creationParamsMsg, []) := by
  have hval : ValidateDefaultIngress (some p) version = some creationParamsMsg := by
    rcases hset with h | h <;> simp [ValidateDefaultIngress, hver, hid, h]
  refine ⟨hval, ?_⟩
  unfold UpdateIngress
  rw [if_neg hne, hval]

/-- Witness for C3 at the concrete intent from the spec: identifier absent,
hostname h.example.com, version 4.14.1. -/
theorem C3_creation_guard_witness :
    ValidateDefaultIngress
        (some { DefaultIngress.empty with clusterRoutesHostname := .value "h.example.com" })
        "4.14.1" = some creationParamsMsg ∧
    UpdateIngress none
        (some { DefaultIngress.empty with clusterRoutesHostname := .value "h.example.com" })
        "c" "4.14.1" ⟨Except.ok [], Except.ok ()⟩ = (.error creationParamsMsg, []) :=
  C3_creation_guard _ _ _ _ _ (by decide) (by decide) (Or.inl (by decide)) (by decide)

/-- C4: when the parent version is below the minimum supported version, the
validation gate reports the version failure, even when the configuration also
violates the hostname/TLS both-or-neither rule; the rules are checked in
order with the first failure winning. -/
theorem C4_version_gate_first (p : DefaultIngress) (version : String)
    (hver : IsGreaterThanOrEqual version lowestDefaultIngressVer = .ok false)
    (hmix : IsStringAttributeEmpty p.clusterRoutesHostname ≠
      IsStringAttributeEmpty p.clusterRoutesTlsSecretRef) :
    ValidateDefaultIngress (some p) version = some (versionUnsupportedMsg version) := by
  simp [ValidateDefaultIngress, hver]

/-- Witness for C4 at version 4.13.0 with hostname set and TLS secret
reference absent. -/
theorem C4_version_gate_first_witness :
    ValidateDefaultIngress
        (some { DefaultIngress.empty with clusterRoutesHostname := .value "h" })
        "4.13.0" = some (versionUnsupportedMsg "4.13.0") :=
  C4_version_gate_first _ _ (by decide) (by decide)

/-- The state produced by the per-field population step of
PopulateDefaultIngress from the default remote ingress. -/
def populatedState (st : DefaultIngress) (ing : RemoteIngress) : DefaultIngress :=
  { routeSelectors :=
      match ing.routeSelectors with
      | some rs => TFMap.value (rs.map fun kv => (kv.1, AttrValue.stringVal kv.2))
      | none => st.routeSelectors,
    excludedNamespaces :=
      match ing.excludedNamespaces with
      | some ns => TFList.value (ns.map AttrValue.stringVal)
      | none => st.excludedNamespaces,
    wildcardPolicy :=
      match ing.routeWildcardPolicy with
      | some wp => .value wp
      | none => .null,
    namespaceOwnershipPolicy :=
      match ing.routeNamespaceOwnershipPolicy with
      | some p => .value p
      | none => .null,
    id := TFString.value ing.remoteId,
    clusterRoutesHostname :=
      match ing.clusterRoutesHostname with
      | some h => .value h
      | none => .null,
    clusterRoutesTlsSecretRef :=
      match ing.clusterRoutesTlsSecretRef with
      | some t => .value t
      | none => .null }

/-- Characterization of the per-field population step: route selectors and
excluded namespaces are overwritten only when present remotely, the four
string fields become the remote value or null. -/
theorem populateFrom_eq (st : DefaultIngress) (ing : RemoteIngress) :
    populateFrom st ing = .ok
      { routeSelectors :=
          match ing.routeSelectors with
          | some rs => TFMap.value (rs.map fun kv => (kv.1, AttrValue.stringVal kv.2))
          | none => st.routeSelectors,
        excludedNamespaces :=
          match ing.excludedNamespaces with
          | some ns => TFList.value (ns.map AttrValue.stringVal)
          | none => st.excludedNamespaces,
        wildcardPolicy :=
          match ing.routeWildcardPolicy with
          | some wp => .value wp
          | none => .null,
        namespaceOwnershipPolicy :=
          match ing.routeNamespaceOwnershipPolicy with
          | some p => .value p
          | none => .null,
        id := TFString.value ing.remoteId,
        clusterRoutesHostname :=
          match ing.clusterRoutesHostname with
          | some h => .value h
          | none => .null,
        clusterRoutesTlsSecretRef :=
          match ing.clusterRoutesTlsSecretRef with
          | some t => .value t
          | none => .null } := by
  cases hrs : ing.routeSelectors <;> cases hen : ing.excludedNamespaces <;>
    simp [populateFrom, hrs, hen, convert_map_ok, string_array_to_list_ok, bind, Except.bind,
      pure, Except.pure]

def c6state : DefaultIngress :=
  { DefaultIngress.empty with routeSelectors := .value [("k", .stringVal "v")] }

def c6remote : RemoteIngress :=
  ⟨"id1", true, none, none, none, none, none, none⟩

/-- C6 counterexample: the remote list has exactly one entry marked default
whose route selectors are absent, yet the populated stored state keeps the
pre-existing route-selectors value instead of becoming null/absent, because
PopulateDefaultIngress overwrites route selectors and excluded namespaces
only when they are present remotely. -/
theorem C6_read_population_counterexample :
    PopulateDefaultIngress (some c6state) (.ok [c6remote]) =
      (.ok (some { DefaultIngress.empty with
        routeSelectors := .value [("k", .stringVal "v")],
        id := .value "id1" }), [RemoteCall.list]) ∧
    TFMap.value [("k", AttrValue.stringVal "v")] ≠ TFMap.null := by
  decide

/-- C6 amended: for a stored state whose route selectors and excluded
namespaces are null (in particular a fresh state), the read path populates
field-by-field from the single default entry: string fields absent remotely
become explicitly null, present fields get the remote value, and a route
selectors field present as an explicit empty mapping becomes an explicit
empty mapping, not absent. Route selectors and excluded namespaces already
set in the incoming state are only overwritten when present remotely. -/
theorem C6_read_population (st : DefaultIngress) (items : List RemoteIngress)
    (ing : RemoteIngress)
    (hrs : st.routeSelectors = TFMap.null) (hen : st.excludedNamespaces = TFList.null)
    (hfind : findDefault items = some ing) :
    PopulateDefaultIngress (some st) (.ok items) =
      (.ok (some
        { routeSelectors :=
            match ing.routeSelectors with
            | some rs => TFMap.value (rs.map fun kv => (kv.1, AttrValue.stringVal kv.2))
            | none => TFMap.null,
          excludedNamespaces :=
            match ing.excludedNamespaces with
            | some ns => TFList.value (ns.map AttrValue.stringVal)
            | none => TFList.null,
          wildcardPolicy :=
            match ing.routeWildcardPolicy with
            | some wp => .value wp
            | none => .null,
          namespaceOwnershipPolicy :=
            match ing.routeNamespaceOwnershipPolicy with
            | some p => .value p
            | none => .null,
          id := TFString.value ing.remoteId,
          clusterRoutesHostname :=
            match ing.clusterRoutesHostname with
            | some h => .value h
            | none => .null,
          clusterRoutesTlsSecretRef :=
            match ing.clusterRoutesTlsSecretRef with
            | some t => .value t
            | none => .null }), [RemoteCall.list]) := by
  have hpop := populateFrom_eq st ing
  rw [hrs, hen] at hpop
  simp [PopulateDefaultIngress, hfind, hpop]

/-- Witness for C6 amended: a fresh state and a remote list whose single
default entry carries an explicitly empty route-selectors mapping; the
populated state has an explicit empty mapping and null scalars. -/
theorem C6_read_population_witness :
    PopulateDefaultIngress (some DefaultIngress.empty)
        (.ok [⟨"id1", true, some [], none, none, none, none, none⟩]) =
      (.ok (some { DefaultIngress.empty with
        routeSelectors := TFMap.value [],
        id := .value "id1" }), [RemoteCall.list]) := by
  simpa using C6_read_population DefaultIngress.empty
    [⟨"id1", true, some [], none, none, none, none, none⟩] _ rfl rfl rfl

theorem populateFrom_populatedState (st : DefaultIngress) (ing : RemoteIngress) :
    populateFrom st ing = .ok (populatedState st ing) :=
  populateFrom_eq st ing

def c5plan : DefaultIngress :=
  { DefaultIngress.empty with wildcardPolicy := .value "Allowed" }

def c5body : IngressBuilder :=
  { isDefault := none, routeSelectors := some [], excludedNamespaces := some [],
    routeWildcardPolicy := some "Allowed", routeNamespaceOwnershipPolicy := none,
    clusterRoutesHostname := none, clusterRoutesTlsSecretRef := none }

/-- C5 counterexample: with a nil stored state and a remote list that has no
default entry, UpdateIngress still issues the update call after the list
read, and that update targets the empty identifier — so the update call can
target an unknown identifier. -/
theorem C5_counterexample :
    UpdateIngress none (some c5plan) "cid" "4.14.1" ⟨Except.ok [], Except.ok ()⟩ =
      (.ok, [RemoteCall.list, RemoteCall.update "" c5body]) := by
  decide

/-- C5 amended: when the stored state is nil or its identifier is empty and
the intent differs, UpdateIngress reads the parent ingress list before the
update call; when the list contains a default entry, the update targets that
entry's identifier. (When the list has no default entry the update is still
issued, against the empty identifier.) -/
theorem C5_populate_before_update (state : Option DefaultIngress) (p : DefaultIngress)
    (clusterId version : String) (client : IngressClient)
    (items : List RemoteIngress) (ing : RemoteIngress) (b0 : IngressBuilder)
    (hpop : (match state with
      | none => true
      | some st => IsStringAttributeEmpty st.id) = true)
    (hne : state ≠ some p)
    (hval : ValidateDefaultIngress (some p) version = none)
    (hlist : client.listResult = .ok items)
    (hfind : findDefault items = some ing)
    (hb : getDefaultIngressBuilder p = some b0) :
    (UpdateIngress state (some p) clusterId version client).2 =
      [RemoteCall.list,
       RemoteCall.update ing.remoteId
         (updateRequestBody (populatedState DefaultIngress.empty ing) p b0)] := by
  have hrun : runPopulateFresh client = (.ok (populatedState DefaultIngress.empty ing),
      [RemoteCall.list]) := by
    simp [runPopulateFresh, PopulateDefaultIngress, hlist, hfind, populateFrom_populatedState]
  cases state with
  | none =>
    cases hu : client.updateResult <;>
      simp [UpdateIngress, hne, hval, hrun, hb, IngressBuilder.build, hu, populatedState,
        TFString.valueString]
  | some st =>
    have hid : IsStringAttributeEmpty st.id = true := hpop
    cases hu : client.updateResult <;>
      simp [UpdateIngress, hne, hval, hrun, hb, hid, IngressBuilder.build, hu, populatedState,
        TFString.valueString]

/-- Witness for C5 amended at a concrete run: nil stored state, a remote
list with one default entry with identifier d1, a plan that only sets the
wildcard policy. -/
theorem C5_populate_before_update_witness :
    (UpdateIngress none (some c5plan) "cid" "4.14.1"
        ⟨Except.ok [⟨"d1", true, none, none, none, none, none, none⟩], Except.ok ()⟩).2 =
      [RemoteCall.list, RemoteCall.update "d1" c5body] := by
  have h := C5_populate_before_update none c5plan "cid" "4.14.1"
    ⟨Except.ok [⟨"d1", true, none, none, none, none, none, none⟩], Except.ok ()⟩
    [⟨"d1", true, none, none, none, none, none, none⟩]
    ⟨"d1", true, none, none, none, none, none, none⟩ c5body
    rfl (by decide) (by decide) rfl rfl (by decide)
  simpa using h

def c2stored : DefaultIngress :=
  { DefaultIngress.empty with wildcardPolicy := .value "Disallowed", id := .value "ing123" }

def c2declared : DefaultIngress :=
  { c2stored with wildcardPolicy := .value "Allowed" }

def c2body : IngressBuilder :=
  { isDefault := none, routeSelectors := some [], excludedNamespaces := some [],
    routeWildcardPolicy := some "Allowed", routeNamespaceOwnershipPolicy := none,
    clusterRoutesHostname := none, clusterRoutesTlsSecretRef := none }

/-- C2 counterexample: at the spec scenario (stored wildcardPolicy
Disallowed, declared Allowed, hostname absent, all other fields equal) the
update request body contains not only the wildcard policy but also the
route-selectors and excluded-namespaces fields, defaulted to empty — the
request is not restricted to the fields that differ. -/
theorem C2_counterexample :
    UpdateIngress (some c2stored) (some c2declared) "cid" "4.14.1"
        ⟨Except.ok [], Except.ok ()⟩ =
      (.ok, [RemoteCall.update "ing123" c2body]) ∧
    c2body.routeSelectors ≠ none ∧ c2body.excludedNamespaces ≠ none := by
  decide

/-- C2 amended: with a known non-empty identifier and a valid plan, the
update request body always contains route selectors and excluded namespaces
(the nil native forms defaulted to empty), contains the wildcard and
namespace-ownership policies exactly when the declared value is non-empty,
and contains hostname and TLS secret reference exactly when the stored and
declared values differ. -/
theorem C2_update_request_fields (st p : DefaultIngress) (clusterId version i : String)
    (client : IngressClient) (rsOpt : Option (List (String × String)))
    (enOpt : Option (List String))
    (hne : st ≠ p)
    (hid : st.id = TFString.value i) (hi : i ≠ "")
    (hval : ValidateDefaultIngress (some p) version = none)
    (hrs : OptionalMap p.routeSelectors = .ok rsOpt)
    (hen : OptionalList p.excludedNamespaces = .ok enOpt)
    (hupd : client.updateResult = .ok ()) :
    UpdateIngress (some st) (some p) clusterId version client =
      (.ok, [RemoteCall.update i
        { isDefault := none,
          routeSelectors := some (rsOpt.getD []),
          excludedNamespaces := some (enOpt.getD []),
          routeWildcardPolicy :=
            if !IsStringAttributeEmpty p.wildcardPolicy then
              some p.wildcardPolicy.valueString
            else none,
          routeNamespaceOwnershipPolicy :=
            if !IsStringAttributeEmpty p.namespaceOwnershipPolicy then
              some p.namespaceOwnershipPolicy.valueString
            else none,
          clusterRoutesHostname :=
            if st.clusterRoutesHostname = p.clusterRoutesHostname then none
            else some p.clusterRoutesHostname.valueString,
          clusterRoutesTlsSecretRef :=
            if st.clusterRoutesTlsSecretRef = p.clusterRoutesTlsSecretRef then none
            else some p.clusterRoutesTlsSecretRef.valueString }]) := by
  have hsp : (some st : Option DefaultIngress) ≠ some p := by simpa using hne
  by_cases h1 : st.clusterRoutesHostname = p.clusterRoutesHostname <;>
    by_cases h2 : st.clusterRoutesTlsSecretRef = p.clusterRoutesTlsSecretRef <;>
      simp [UpdateIngress, hsp, hval, getDefaultIngressBuilder, hrs, hen,
        updateRequestBody, IngressBuilder.build, hupd, hid, IsStringAttributeEmpty, hi,
        TFString.valueString, h1, h2]

/-- Witness for C2 amended at the spec scenario: the body carries the empty
route selectors and excluded namespaces, the Allowed wildcard policy, and no
hostname or TLS secret reference. -/
theorem C2_update_request_fields_witness :
    UpdateIngress (some c2stored) (some c2declared) "cid" "4.14.1"
        ⟨Except.ok [], Except.ok ()⟩ = (.ok, [RemoteCall.update "ing123" c2body]) := by
  have h := C2_update_request_fields c2stored c2declared "cid" "4.14.1" "ing123"
    ⟨Except.ok [], Except.ok ()⟩ none none (by decide) rfl (by decide) (by decide) rfl rfl rfl
  simpa [c2stored, c2declared, c2body, DefaultIngress.empty] using h
